import Mathlib

/-!
Verification of the bill_compare repository: a finance tool server
(my_finance_mcp_server.py) exposing `get_exchange_rate` and
`get_fee_description`, and a reconciliation client (compare.py) with a
stdout-capturing `Logger`, a minute-granularity log filename, two fixed
sample tables, and a try/finally restore of the output sink.
Monetary amounts and rates are embedded as exact rationals.
-/

namespace BillCompare

/-! Tool server: my_finance_mcp_server.py -/

/-- Embedding of Python's `str.upper()` (ASCII case mapping, applied
character by character). -/
def pyUpper (s : String) : String := ⟨s.data.map Char.toUpper⟩

/-- Fixed rate mapping from `get_exchange_rate`:
`rates = {"USD": 7.2, "EUR": 7.8}`. -/
def rates : List (String × Rat) := [("USD", 7.2), ("EUR", 7.8)]

/-- Embedding of `get_exchange_rate(currency)`:
`return rates.get(currency.upper(), 1.0)`. -/
def get_exchange_rate (currency : String) : Rat :=
  (List.lookup (pyUpper currency) rates).getD 1

/-- Embedding of `get_fee_description(amount)`:
`if amount > 1000: return "Possible 3% international transaction fee"`
`return "Standard transaction fee"`. -/
def get_fee_description (amount : Rat) : String :=
  if amount > 1000 then "Possible 3% international transaction fee"
  else "Standard transaction fee"

/-! Reconciliation client: compare.py -/

/-- Python truthiness of the `api_key` value: `not api_key` holds when the
environment variable is unset (`None`) or set to the empty string. -/
def apiKeyMissing : Option String → Bool
  | none => true
  | some s => s = ""

/-- Output sinks: an arbitrary original sink (identified by a tag), or a
`Logger` wrapping the sink that was `sys.stdout` when it was constructed
(`self.terminal = sys.stdout`). -/
inductive Sink where
  | base (tag : Nat)
  | logger (terminal : Sink)
deriving DecidableEq, Repr

/-- State touched by `main`'s stdout capture: the current `sys.stdout`
sink, the number of open log handles, and counters for how many times the
log was closed and the original sink restored. -/
structure MainState where
  stdout : Sink
  openLogs : Nat
  closeCount : Nat
  restoreCount : Nat
deriving DecidableEq, Repr

/-- Embedding of `sys.stdout = Logger(log_filename)` (compare.py line 49):
the `Logger.__init__` records the current sink as `terminal` and opens the
log file, then the assignment replaces `sys.stdout`. -/
def installLogger (s : MainState) : MainState :=
  { s with stdout := Sink.logger s.stdout, openLogs := s.openLogs + 1 }

/-- Embedding of the `finally` block (compare.py lines 130-134):
`if isinstance(sys.stdout, Logger): sys.stdout.log.close();`
`sys.stdout = sys.stdout.terminal`. -/
def finallyBlock (s : MainState) : MainState :=
  match s.stdout with
  | Sink.logger t =>
      { stdout := t, openLogs := s.openLogs - 1,
        closeCount := s.closeCount + 1, restoreCount := s.restoreCount + 1 }
  | _ => s

/-- The sink-related effect of `main`: install the `Logger`, run the try
body (which never reassigns `sys.stdout`, whether it completes or raises —
`bodyFails` selects the exit path), then run the `finally` block on every
path. -/
def mainModel (s : MainState) (_bodyFails : Bool) : MainState :=
  finallyBlock (installLogger s)

/-- Observable client-run events, in program order. -/
inductive Event where
  | configError
  | createLogFile
  | installCapture
  | connectServer
  | agentRun
  | closeLogFile
  | restoreStdout
deriving DecidableEq, Repr

/-- Event trace of one client invocation of compare.py: the module-level
credential check (lines 15-18) raises before `main` ever runs; otherwise
`main` opens the log, installs the capture, connects to the tool server
inside the try body, runs the agent unless the body raises first, and the
`finally` block closes the log and restores stdout on both paths. -/
def clientEvents (apiKey : Option String) (bodyFails : Bool) : List Event :=
  if apiKeyMissing apiKey then [Event.configError]
  else
    [Event.createLogFile, Event.installCapture, Event.connectServer] ++
      (if bodyFails then [] else [Event.agentRun]) ++
      [Event.closeLogFile, Event.restoreStdout]

/-- Names of the tools registered on the MCP server, in registration order
(the two `@mcp.tool()` functions of my_finance_mcp_server.py), as discovered
by `mcp_spec.to_tool_list_async()`. -/
def mcp_tools : List String := ["get_exchange_rate", "get_fee_description"]

/-- Names of the two constructed `QueryEngineTool` handles
(compare.py lines 86-101). -/
def local_tools : List String := ["internal_records", "bank_statement"]

/-- Embedding of `all_tools = mcp_tools + local_tools` (compare.py
line 104). -/
def all_tools : List String := mcp_tools ++ local_tools

/-- Buffered contents seen by a `Logger`: the messages written to the
original terminal sink and the messages written to the log file. -/
structure LoggerBuf where
  terminal : List String
  log : List String
deriving DecidableEq, Repr

/-- Embedding of `Logger.write(message)`:
`self.terminal.write(message); self.log.write(message)`. -/
def loggerWrite (s : LoggerBuf) (message : String) : LoggerBuf :=
  { terminal := s.terminal ++ [message], log := s.log ++ [message] }

/-- Writing a sequence of messages through the `Logger`, in order. -/
def loggerWriteAll (s : LoggerBuf) (messages : List String) : LoggerBuf :=
  messages.foldl loggerWrite s

/-- One row of `internal_df` (compare.py lines 67-72). -/
structure InternalRow where
  trans_id : String
  date : String
  amount : Rat
  desc : String
deriving DecidableEq, Repr

/-- One row of `bank_df` (compare.py lines 75-80). -/
structure BankRow where
  bank_ref : String
  bank_date : String
  bank_amount : Rat
  bank_desc : String
deriving DecidableEq, Repr

/-- The fixed internal-records sample table `internal_df`. -/
def internal_df : List InternalRow :=
  [⟨"T101", "2023-10-01", 150, "Starbucks Coffee"⟩,
   ⟨"T102", "2023-10-02", 200, "Apple Store"⟩,
   ⟨"T103", "2023-10-03", 3000, "Business Flight"⟩]

/-- The fixed bank-statement sample table `bank_df`. -/
def bank_df : List BankRow :=
  [⟨"B_REF_01", "2023-10-01", 150, "SBUX #4829 SEATTLE"⟩,
   ⟨"B_REF_02", "2023-10-02", 200, "APPLE.COM/BILL"⟩,
   ⟨"B_REF_03", "2023-10-04", 3090, "AIRLINE TICKETS"⟩]

/-- A wall-clock instant, to second granularity, as read by
`datetime.now()`. -/
structure DateTime where
  year : Nat
  month : Nat
  day : Nat
  hour : Nat
  minute : Nat
  second : Nat
deriving DecidableEq, Repr

/-- Zero-padded two-digit decimal field, as produced by the `%m`, `%d`,
`%H`, `%M` directives of `strftime`. -/
def pad2 (n : Nat) : String :=
  if n < 10 then "0" ++ toString n else toString n

/-- Zero-padded four-digit year, as produced by the `%Y` directive of
`strftime`. -/
def pad4 (n : Nat) : String :=
  if n < 10 then "000" ++ toString n
  else if n < 100 then "00" ++ toString n
  else if n < 1000 then "0" ++ toString n
  else toString n

/-- Embedding of `datetime.now().strftime("%Y%m%d_%H%M")` (compare.py
line 45): minute granularity, the second is not consulted. -/
def timestampOf (t : DateTime) : String :=
  pad4 t.year ++ pad2 t.month ++ pad2 t.day ++ "_" ++ pad2 t.hour ++ pad2 t.minute

/-- Embedding of `log_filename = f"comparison_log_{timestamp}.txt"`
(compare.py line 46). -/
def log_filename (t : DateTime) : String :=
  "comparison_log_" ++ timestampOf t ++ ".txt"

/-- File open modes relevant to the `Logger`. -/
inductive OpenMode where
  | write
  | append
deriving DecidableEq, Repr

/-- The mode `Logger.__init__` opens the log file with:
`open(filename, "w", encoding="utf-8")`. -/
def loggerOpenMode : OpenMode := OpenMode.write

/-- A flat filesystem: an association list from filename to content. -/
abbrev FileSystem := List (String × String)

/-- Replace the content of `name` if present, otherwise create it. -/
def setFile (fs : FileSystem) (name content : String) : FileSystem :=
  if (List.lookup name fs).isSome then
    fs.map (fun p => if p.1 = name then (name, content) else p)
  else fs ++ [(name, content)]

/-- Effect of `open(name, mode)` on the filesystem: `"w"` truncates the
file to empty (creating it if absent), `"a"` keeps existing content
(creating an empty file only if absent). -/
def openFile (fs : FileSystem) (name : String) : OpenMode → FileSystem
  | OpenMode.write => setFile fs name ""
  | OpenMode.append =>
      match List.lookup name fs with
      | some _ => fs
      | none => setFile fs name ""

/-- Filesystem effect of `Logger.__init__(filename)`. -/
def loggerInitFS (fs : FileSystem) (filename : String) : FileSystem :=
  openFile fs filename loggerOpenMode

end BillCompare

namespace BillCompare

/-- C1: for every currency code whose upper-cased form is present in the
fixed rate mapping, `get_exchange_rate` returns the mapped value; for every
other input string it returns exactly 1.0; in particular
`get_exchange_rate "usd" = 7.2`, `get_exchange_rate "eur" = 7.8`, and
`get_exchange_rate "gbp" = 1.0`. -/
theorem get_exchange_rate_spec (currency : String) :
    (∀ r : Rat, List.lookup (pyUpper currency) rates = some r →
      get_exchange_rate currency = r) ∧
    (List.lookup (pyUpper currency) rates = none →
      get_exchange_rate currency = 1) ∧
    get_exchange_rate "usd" = 7.2 ∧
    get_exchange_rate "eur" = 7.8 ∧
    get_exchange_rate "gbp" = 1 := by
  refine ⟨?_, ?_, rfl, rfl, rfl⟩
  · intro r h
    simp [get_exchange_rate, h]
  · intro h
    simp [get_exchange_rate, h]

/-- C1 witness: the mapped and the default branch at concrete inputs. -/
theorem get_exchange_rate_spec_witness :
    get_exchange_rate "usd" = 7.2 ∧ get_exchange_rate "gbp" = 1 :=
  ⟨(get_exchange_rate_spec "usd").1 7.2 rfl,
   (get_exchange_rate_spec "gbp").2.1 rfl⟩

/-- C2: for every amount strictly greater than 1000, `get_fee_description`
returns the international-fee message; for every amount ≤ 1000 (including
exactly 1000) it returns the standard-fee message; in particular amount 3000
yields the international-fee message and 150 the standard-fee message. -/
theorem get_fee_description_spec (amount : Rat) :
    (amount > 1000 →
      get_fee_description amount = "Possible 3% international transaction fee") ∧
    (amount ≤ 1000 →
      get_fee_description amount = "Standard transaction fee") ∧
    get_fee_description 1000 = "Standard transaction fee" ∧
    get_fee_description 3000 = "Possible 3% international transaction fee" ∧
    get_fee_description 150 = "Standard transaction fee" := by
  refine ⟨?_, ?_, by decide, by decide, by decide⟩
  · intro h
    simp [get_fee_description, h]
  · intro h
    simp [get_fee_description, not_lt.mpr h]

/-- C2 witness: both branches at concrete amounts, including the boundary. -/
theorem get_fee_description_spec_witness :
    get_fee_description 3000 = "Possible 3% international transaction fee" ∧
    get_fee_description 1000 = "Standard transaction fee" :=
  ⟨(get_fee_description_spec 3000).1 (by decide),
   (get_fee_description_spec 1000).2.1 (by decide)⟩

/-- C3: on every exit path of `main` (normal completion or a body error),
the `finally` block restores the original output sink exactly once and
closes the log file handle exactly once; afterwards `sys.stdout` equals the
sink in place before the capture began and no log handle stays open. -/
theorem main_restores_stdout (s : MainState) (bodyFails : Bool) :
    (mainModel s bodyFails).stdout = s.stdout ∧
    (mainModel s bodyFails).closeCount = s.closeCount + 1 ∧
    (mainModel s bodyFails).restoreCount = s.restoreCount + 1 ∧
    (mainModel s bodyFails).openLogs = s.openLogs := by
  simp [mainModel, installLogger, finallyBlock]

/-- C4: when the API credential is absent (unset or empty), the client run
is exactly the fatal configuration error, with no connection attempt, no
capture installation and no log file creation on the trace; when the
credential is present, startup proceeds without a configuration error. -/
theorem missing_api_key_aborts (apiKey : Option String) (bodyFails : Bool) :
    (apiKeyMissing apiKey = true →
      clientEvents apiKey bodyFails = [Event.configError] ∧
      Event.connectServer ∉ clientEvents apiKey bodyFails ∧
      Event.installCapture ∉ clientEvents apiKey bodyFails ∧
      Event.createLogFile ∉ clientEvents apiKey bodyFails) ∧
    (apiKeyMissing apiKey = false →
      Event.configError ∉ clientEvents apiKey bodyFails ∧
      Event.installCapture ∈ clientEvents apiKey bodyFails) := by
  constructor
  · intro h
    simp [clientEvents, h]
  · intro h
    cases bodyFails <;> simp [clientEvents, h]

/-- C4 witness: a missing credential yields only the configuration error;
a present credential installs the capture with no configuration error. -/
theorem missing_api_key_aborts_witness :
    clientEvents none false = [Event.configError] ∧
    Event.configError ∉ clientEvents (some "k") false :=
  ⟨((missing_api_key_aborts none false).1 rfl).1,
   ((missing_api_key_aborts (some "k") false).2 rfl).1⟩

/-- C5: the tool list passed to the agent is the two discovered server
tools (`get_exchange_rate`, `get_fee_description`) followed by the two
constructed tabular handles (`internal_records`, `bank_statement`): its
membership is exactly the union of the two sources, with no duplicates and
no omissions. -/
theorem all_tools_union (n : String) :
    all_tools =
      ["get_exchange_rate", "get_fee_description",
       "internal_records", "bank_statement"] ∧
    all_tools.Nodup ∧
    (n ∈ all_tools ↔ n ∈ mcp_tools ∨ n ∈ local_tools) ∧
    mcp_tools = ["get_exchange_rate", "get_fee_description"] ∧
    local_tools = ["internal_records", "bank_statement"] := by
  refine ⟨rfl, by decide, ?_, rfl, rfl⟩
  simp [all_tools, List.mem_append]

/-- Helper: the cumulative effect of writing a message list through the
`Logger` appends it to both buffers. -/
theorem loggerWriteAll_eq (messages : List String) (t l : List String) :
    loggerWriteAll ⟨t, l⟩ messages = ⟨t ++ messages, l ++ messages⟩ := by
  induction messages generalizing t l with
  | nil => simp [loggerWriteAll]
  | cons m ms ih =>
      have hstep : loggerWriteAll ⟨t, l⟩ (m :: ms) =
          loggerWriteAll ⟨t ++ [m], l ++ [m]⟩ ms := rfl
      rw [hstep, ih]
      simp

/-- C6: each `Logger.write` sends the message to both the terminal and the
log file, and after any sequence of writes starting from a fresh log the
log contains exactly the written messages in order while the terminal
received the same sequence after its prior content. -/
theorem logger_duplicates_output (s : LoggerBuf) (m : String)
    (t0 messages : List String) :
    (loggerWrite s m).terminal = s.terminal ++ [m] ∧
    (loggerWrite s m).log = s.log ++ [m] ∧
    (loggerWriteAll ⟨t0, []⟩ messages).terminal = t0 ++ messages ∧
    (loggerWriteAll ⟨t0, []⟩ messages).log = messages := by
  refine ⟨rfl, rfl, ?_, ?_⟩ <;> simp [loggerWriteAll_eq]

/-- C7: in the fixed sample tables, the T103 internal row and the B_REF_03
bank row have amounts 3000 and 3090 with 3090 = 3000 × 1.03, the internal
amount exceeds the 1000 threshold so `get_fee_description` returns the
international-fee message for it, and their dates are 2023-10-03 versus
2023-10-04. -/
theorem sample_pair_T103 :
    internal_df.find? (fun r => r.trans_id == "T103") =
      some ⟨"T103", "2023-10-03", 3000, "Business Flight"⟩ ∧
    bank_df.find? (fun r => r.bank_ref == "B_REF_03") =
      some ⟨"B_REF_03", "2023-10-04", 3090, "AIRLINE TICKETS"⟩ ∧
    (3090 : Rat) = 3000 * 1.03 ∧
    (3000 : Rat) > 1000 ∧
    get_fee_description 3000 = "Possible 3% international transaction fee" ∧
    "2023-10-03" ≠ "2023-10-04" :=
  ⟨rfl, rfl, by norm_num, by decide, by decide, by decide⟩

/-- Helper: the log filename depends only on year, month, day, hour and
minute of the start time. -/
theorem log_filename_congr (t1 t2 : DateTime) (hy : t1.year = t2.year)
    (hmo : t1.month = t2.month) (hd : t1.day = t2.day)
    (hh : t1.hour = t2.hour) (hmi : t1.minute = t2.minute) :
    log_filename t1 = log_filename t2 := by
  simp [log_filename, timestampOf, hy, hmo, hd, hh, hmi]

/-- C8: the run log filename is the fixed prefix followed by a
minute-granularity timestamp (year, month, day, hour, minute, no seconds):
any two start times agreeing on those five fields yield the same filename,
and a concrete start time shows the exact format. -/
theorem log_filename_minute (t1 t2 : DateTime) (hy : t1.year = t2.year)
    (hmo : t1.month = t2.month) (hd : t1.day = t2.day)
    (hh : t1.hour = t2.hour) (hmi : t1.minute = t2.minute) :
    log_filename t1 = log_filename t2 ∧
    log_filename ⟨2023, 10, 3, 14, 5, 0⟩ = "comparison_log_20231003_1405.txt" :=
  ⟨log_filename_congr t1 t2 hy hmo hd hh hmi, by decide⟩

/-- C8 witness: two start times in the same minute but with different
seconds produce the identical filename. -/
theorem log_filename_minute_witness :
    log_filename ⟨2023, 10, 3, 14, 5, 7⟩ = log_filename ⟨2023, 10, 3, 14, 5, 59⟩ :=
  (log_filename_minute ⟨2023, 10, 3, 14, 5, 7⟩ ⟨2023, 10, 3, 14, 5, 59⟩
    rfl rfl rfl rfl rfl).1

/-- C9: the log is opened with `"w"` (write-truncate, not append); two runs
whose start times fall in the same calendar minute derive the identical
filename, and the later run's `Logger.__init__` truncates the earlier run's
log file to empty — it neither appends nor creates a distinct file. -/
theorem same_minute_truncates (t1 t2 : DateTime) (hy : t1.year = t2.year)
    (hmo : t1.month = t2.month) (hd : t1.day = t2.day)
    (hh : t1.hour = t2.hour) (hmi : t1.minute = t2.minute) (c : String) :
    loggerOpenMode = OpenMode.write ∧
    log_filename t2 = log_filename t1 ∧
    loggerInitFS [(log_filename t1, c)] (log_filename t2) =
      [(log_filename t1, "")] := by
  have he : log_filename t2 = log_filename t1 :=
    log_filename_congr t2 t1 hy.symm hmo.symm hd.symm hh.symm hmi.symm
  refine ⟨rfl, he, ?_⟩
  simp [loggerInitFS, openFile, loggerOpenMode, setFile, he, List.lookup]

/-- C9 witness: a second run seven seconds into the same minute reuses the
first run's filename and truncates its content. -/
theorem same_minute_truncates_witness :
    loggerInitFS [(log_filename ⟨2023, 10, 3, 14, 5, 0⟩, "first run transcript")]
        (log_filename ⟨2023, 10, 3, 14, 5, 7⟩) =
      [(log_filename ⟨2023, 10, 3, 14, 5, 0⟩, "")] :=
  (same_minute_truncates ⟨2023, 10, 3, 14, 5, 0⟩ ⟨2023, 10, 3, 14, 5, 7⟩
    rfl rfl rfl rfl rfl "first run transcript").2.2

/-- C10: `get_exchange_rate` is total over all input strings and its return
value is always one of exactly 7.2, 7.8, or 1.0. -/
theorem get_exchange_rate_total (currency : String) :
    get_exchange_rate currency = 7.2 ∨
    get_exchange_rate currency = 7.8 ∨
    get_exchange_rate currency = 1 := by
  unfold get_exchange_rate rates
  simp only [List.lookup]
  split
  · left; rfl
  · split
    · right; left; rfl
    · right; right; rfl

end BillCompare
